import Mathlib

/-!
Verification of the truckmate-routes trip-planning UI.

This file gives a shallow embedding of the repository's core logic:
the trip-planning surface (`PlanTrip.tsx`), the mock ELD log generator
(`ReviewLogs.tsx`), the cycle-hours severity display
(`CycleHoursSlider.tsx`), the map-overlay state (`MapContext`, the
unnamed source file holding `addMarker` / `drawRoute`), and the
debounced geocoding suggestion effect (`LocationInput.tsx`).

Floats of the source carry only literal values (35.5, 52.5, durations,
coordinates) on which no rounding-sensitive arithmetic is performed, so
they are embedded as rationals.  JavaScript `Date` values are embedded
as natural-number timestamps (milliseconds since the epoch);
`toISOString` day extraction becomes division by the milliseconds per
day.  Effects (toasts, navigation, localStorage writes, map mutations)
are embedded as explicit result records / state passing.
-/

namespace Truckmate

/-- Role of a selected location, from the `type` field of the
`Location` interface in `PlanTrip.tsx` / `MapContext`. -/
inductive LocationType where
  | current
  | pickup
  | dropoff
deriving DecidableEq, Repr

/-- `Location` interface of `PlanTrip.tsx` / `MapContext`:
`{ lat, lng, address, type }`. -/
structure Location where
  lat : ℚ
  lng : ℚ
  address : String
  type : LocationType
deriving DecidableEq, Repr

/-- `TripData` interface of `ReviewLogs.tsx`: the record persisted by
`PlanTrip.handlePlanTrip` into the `currentTrip` localStorage slot.
`plannedAt` (an ISO string in the source, produced by
`new Date().toISOString()`) is embedded as the underlying
milliseconds-since-epoch timestamp. -/
structure TripData where
  currentLocation : String
  pickupLocation : String
  dropoffLocation : String
  cycleHours : ℚ
  mapLocations : List Location
  plannedAt : Nat
deriving DecidableEq, Repr

/-- Duty status of a log segment (`LogSegment.status` in
`ReviewLogs.tsx`). -/
inductive DutyStatus where
  | driving
  | onduty
  | sleeper
  | offduty
deriving DecidableEq, Repr

/-- `LogSegment` interface of `ReviewLogs.tsx`. -/
structure LogSegment where
  startTime : String
  endTime : String
  status : DutyStatus
  location : String
  duration : ℚ
deriving DecidableEq, Repr

/-- `ELDLog` interface of `ReviewLogs.tsx`.  `date` (an ISO date string
`YYYY-MM-DD` in the source) is embedded as the UTC day number. -/
structure ELDLog where
  id : String
  date : Nat
  drivingTime : ℚ
  onDutyTime : ℚ
  sleeperTime : ℚ
  offDutyTime : ℚ
  segments : List LogSegment
deriving DecidableEq, Repr

/-- Milliseconds in a civil day, used to embed
`date.toISOString().split('T')[0]` as a day number. -/
def msPerDay : Nat := 86400000

/-- The segment array built for day `day` inside
`generateELDLogs` (ReviewLogs.tsx lines 84-120), verbatim: five
segments with hard-coded times and durations, the location of the
first segment substituted on day 0, of the second on day 1, and of
the fourth on day 2. -/
def mkSegments (data : TripData) (day : Nat) : List LogSegment :=
  [ { startTime := "06:00", endTime := "07:00", status := .onduty,
      location := if day = 0 then data.currentLocation else "Rest Area Mile 45",
      duration := 1 },
    { startTime := "07:00", endTime := "12:00", status := .driving,
      location := if day = 1 then data.pickupLocation else "Highway I-95",
      duration := 5 },
    { startTime := "12:00", endTime := "13:00", status := .offduty,
      location := "Truck Stop & Fuel",
      duration := 1 },
    { startTime := "13:00", endTime := "18:00", status := .driving,
      location := if day = 2 then data.dropoffLocation else "Highway I-75",
      duration := 5 },
    { startTime := "18:00", endTime := "06:00", status := .sleeper,
      location := "Authorized Parking Area",
      duration := 12 } ]

/-- The `ELDLog` pushed for day `day` inside `generateELDLogs`
(ReviewLogs.tsx lines 122-130): id `log-(day+1)`, the start date
shifted by `day` civil days, and the four literal aggregate totals. -/
def mkLog (data : TripData) (day : Nat) : ELDLog :=
  { id := "log-" ++ toString (day + 1),
    date := data.plannedAt / msPerDay + day,
    drivingTime := 10,
    onDutyTime := 1,
    sleeperTime := 12,
    offDutyTime := 1,
    segments := mkSegments data day }

/-- `generateELDLogs` of `ReviewLogs.tsx` (lines 74-134): the
`for (let day = 0; day < 3; day++)` loop pushing one log per day. -/
def generateELDLogs (data : TripData) : List ELDLog :=
  (List.range 3).map (mkLog data)

/-- A concrete trip record used to instantiate universally quantified
theorems (the scenario record of spec section 8). -/
def sampleTrip : TripData :=
  { currentLocation := "A",
    pickupLocation := "B",
    dropoffLocation := "C",
    cycleHours := 35.5,
    mapLocations := [],
    plannedAt := 1704067200000 }

/-- C1: For every TripRecord input, the mock log generator returns
exactly 3 DailyLog entries, each containing exactly 5 LogSegments whose
duration fields sum to 24 hours. -/
theorem generateELDLogs_three_days_five_segments_24h (data : TripData)
    (log : ELDLog) (hmem : log ∈ generateELDLogs data) :
    (generateELDLogs data).length = 3 ∧
      log.segments.length = 5 ∧
      (log.segments.map LogSegment.duration).sum = 24 := by
  refine ⟨rfl, ?_⟩
  simp only [generateELDLogs, List.mem_map, List.mem_range] at hmem
  obtain ⟨day, -, rfl⟩ := hmem
  constructor
  · rfl
  · simp [mkLog, mkSegments]
    norm_num

/-- Witness for C1 at the concrete sample trip and its first log. -/
theorem generateELDLogs_three_days_five_segments_24h_witness :
    (generateELDLogs sampleTrip).length = 3 ∧
      (mkLog sampleTrip 0).segments.length = 5 ∧
      ((mkLog sampleTrip 0).segments.map LogSegment.duration).sum = 24 :=
  generateELDLogs_three_days_five_segments_24h sampleTrip (mkLog sampleTrip 0)
    (by simp only [generateELDLogs, List.mem_map, List.mem_range]
        exact ⟨0, by norm_num, rfl⟩)

/-- `generateELDLogs` unfolded to its three pushed logs. -/
theorem generateELDLogs_eq (data : TripData) :
    generateELDLogs data = [mkLog data 0, mkLog data 1, mkLog data 2] := rfl

/-- Default segment used only to give `List.getD` a fallback. -/
def defaultSegment : LogSegment :=
  { startTime := "", endTime := "", status := .driving, location := "", duration := 0 }

/-- Location of segment `i` of the day-`day` generated log. -/
def segmentLocation (data : TripData) (day i : Nat) : String :=
  (((generateELDLogs data).getD day (mkLog data 0)).segments.getD i defaultSegment).location

/-- The fixed placeholder location strings of the five template
segments in `generateELDLogs` (used on the days where no substitution
happens; the third and fifth slots are never substituted). -/
def placeholderLoc : Nat → String
  | 0 => "Rest Area Mile 45"
  | 1 => "Highway I-95"
  | 2 => "Truck Stop & Fuel"
  | 3 => "Highway I-75"
  | _ => "Authorized Parking Area"

/-- C3: For every TripRecord, the day-0 log's first segment location is
the record's currentLocation, the day-1 log's 07:00-12:00 driving
segment location is the pickupLocation, the day-2 log's final
13:00-18:00 driving segment location is the dropoffLocation, and every
other segment location is the fixed placeholder string of its slot. -/
theorem generateELDLogs_segment_locations (data : TripData) (day i : Nat)
    (hday : day < 3) (hi : i < 5) :
    segmentLocation data day i =
      if day = 0 ∧ i = 0 then data.currentLocation
      else if day = 1 ∧ i = 1 then data.pickupLocation
      else if day = 2 ∧ i = 3 then data.dropoffLocation
      else placeholderLoc i := by
  interval_cases day <;> interval_cases i <;>
    simp [segmentLocation, generateELDLogs_eq, mkLog, mkSegments, placeholderLoc]

/-- Witness for C3: on the sample trip, day 1's second segment carries
the pickup address "B". -/
theorem generateELDLogs_segment_locations_witness :
    segmentLocation sampleTrip 1 1 = "B" := by
  have h := generateELDLogs_segment_locations sampleTrip 1 1 (by norm_num) (by norm_num)
  simpa [sampleTrip] using h

/-- Sum of the durations of the segments of `log` having status `st`;
what the aggregated per-day totals would be if derived from the
segments. -/
def statusSum (log : ELDLog) (st : DutyStatus) : ℚ :=
  ((log.segments.filter fun seg => decide (seg.status = st)).map LogSegment.duration).sum

/-- C4 counterexample: the claim says the literal per-day totals do NOT
equal the per-status sums of the day's segment durations; but on the
concrete sample trip the day-0 log's four totals all equal the
corresponding per-status segment sums. -/
theorem eld_totals_not_derived_counterexample :
    ((generateELDLogs sampleTrip).getD 0 (mkLog sampleTrip 0)).drivingTime =
        statusSum ((generateELDLogs sampleTrip).getD 0 (mkLog sampleTrip 0)) .driving ∧
      ((generateELDLogs sampleTrip).getD 0 (mkLog sampleTrip 0)).onDutyTime =
        statusSum ((generateELDLogs sampleTrip).getD 0 (mkLog sampleTrip 0)) .onduty ∧
      ((generateELDLogs sampleTrip).getD 0 (mkLog sampleTrip 0)).sleeperTime =
        statusSum ((generateELDLogs sampleTrip).getD 0 (mkLog sampleTrip 0)) .sleeper ∧
      ((generateELDLogs sampleTrip).getD 0 (mkLog sampleTrip 0)).offDutyTime =
        statusSum ((generateELDLogs sampleTrip).getD 0 (mkLog sampleTrip 0)) .offduty := by
  refine ⟨?_, ?_, ?_, ?_⟩ <;>
    simp +decide [generateELDLogs_eq, mkLog, mkSegments, statusSum, List.filter]
  norm_num

/-- C4 amended: the aggregated per-day totals are literal constants
(10 driving, 1 on-duty, 12 sleeper, 1 off-duty) and, for every
TripRecord and every generated day, these constants equal exactly the
sums of that day's segment durations grouped by status (location
substitutions never change durations). -/
theorem eld_totals_equal_segment_sums (data : TripData) (day : Nat)
    (hday : day < 3) :
    ((generateELDLogs data).getD day (mkLog data 0)).drivingTime = 10 ∧
      ((generateELDLogs data).getD day (mkLog data 0)).onDutyTime = 1 ∧
      ((generateELDLogs data).getD day (mkLog data 0)).sleeperTime = 12 ∧
      ((generateELDLogs data).getD day (mkLog data 0)).offDutyTime = 1 ∧
      statusSum ((generateELDLogs data).getD day (mkLog data 0)) .driving = 10 ∧
      statusSum ((generateELDLogs data).getD day (mkLog data 0)) .onduty = 1 ∧
      statusSum ((generateELDLogs data).getD day (mkLog data 0)) .sleeper = 12 ∧
      statusSum ((generateELDLogs data).getD day (mkLog data 0)) .offduty = 1 := by
  interval_cases day <;>
    refine ⟨rfl, rfl, rfl, rfl, ?_, ?_, ?_, ?_⟩ <;>
      simp +decide [generateELDLogs_eq, mkLog, mkSegments, statusSum, List.filter] <;>
        norm_num

/-- Witness for C4's amended theorem at the sample trip, day 2. -/
theorem eld_totals_equal_segment_sums_witness :
    ((generateELDLogs sampleTrip).getD 2 (mkLog sampleTrip 0)).drivingTime = 10 ∧
      ((generateELDLogs sampleTrip).getD 2 (mkLog sampleTrip 0)).onDutyTime = 1 ∧
      ((generateELDLogs sampleTrip).getD 2 (mkLog sampleTrip 0)).sleeperTime = 12 ∧
      ((generateELDLogs sampleTrip).getD 2 (mkLog sampleTrip 0)).offDutyTime = 1 ∧
      statusSum ((generateELDLogs sampleTrip).getD 2 (mkLog sampleTrip 0)) .driving = 10 ∧
      statusSum ((generateELDLogs sampleTrip).getD 2 (mkLog sampleTrip 0)) .onduty = 1 ∧
      statusSum ((generateELDLogs sampleTrip).getD 2 (mkLog sampleTrip 0)) .sleeper = 12 ∧
      statusSum ((generateELDLogs sampleTrip).getD 2 (mkLog sampleTrip 0)) .offduty = 1 :=
  eld_totals_equal_segment_sums sampleTrip 2 (by norm_num)

/-- `getStatusColor` of `CycleHoursSlider.tsx` (lines 25-30):
`percentage = (value / maxHours) * 100`; `>= 90` is critical
(`text-destructive`), `>= 75` is warning (`text-warning`), anything
below is normal (`text-success`).  The same thresholds drive the icon,
the progress bar and the advisory messages (lines 92-93, 106, 114). -/
def getStatusColor (value maxHours : ℚ) : String :=
  let percentage := value / maxHours * 100
  if percentage ≥ 90 then "text-destructive"
  else if percentage ≥ 75 then "text-warning"
  else "text-success"

/-- C5: for every value v in [0,70] with max = 70, severity is normal
(`text-success`) iff v/70 < 75%, warning (`text-warning`) iff
75% <= v/70 < 90%, critical (`text-destructive`) iff v/70 >= 90%;
in particular v = 0 is normal, v = 52.5 is warning, v = 70 is
critical. -/
theorem cycleHours_severity (v : ℚ) (_h0 : 0 ≤ v) (_h70 : v ≤ 70) :
    ((getStatusColor v 70 = "text-success") ↔ v / 70 < 75 / 100) ∧
      ((getStatusColor v 70 = "text-warning") ↔ (75 / 100 ≤ v / 70 ∧ v / 70 < 90 / 100)) ∧
      ((getStatusColor v 70 = "text-destructive") ↔ 90 / 100 ≤ v / 70) ∧
      getStatusColor 0 70 = "text-success" ∧
      getStatusColor (105 / 2) 70 = "text-warning" ∧
      getStatusColor 70 70 = "text-destructive" := by
  refine ⟨?_, ?_, ?_, by norm_num [getStatusColor], by norm_num [getStatusColor],
    by norm_num [getStatusColor]⟩ <;>
    · unfold getStatusColor
      dsimp only
      split_ifs with h1 h2 <;> simp_all <;>
        first
        | linarith
        | (intro h; linarith)
        | (constructor <;> linarith)

/-- Witness for C5 at v = 35 (below the warning threshold). -/
theorem cycleHours_severity_witness : getStatusColor 35 70 = "text-success" :=
  (cycleHours_severity 35 (by norm_num) (by norm_num)).1.mpr (by norm_num)

/-- Observable outcome of one `handlePlanTrip` invocation
(`PlanTrip.tsx` lines 69-115): the toasts raised, the value written to
the `currentTrip` localStorage slot (none when rejected), and the
navigations performed. -/
structure PlanResult where
  toasts : List String
  stored : Option TripData
  navigations : List String
deriving DecidableEq, Repr

/-- `handlePlanTrip` of `PlanTrip.tsx`: if any of the three address
texts is empty (JS falsiness of a string), toast "Missing Information"
and return without writing; otherwise toast success, write the trip
record with `plannedAt := now` (the clock when `new Date()` runs,
after the simulated delay) and navigate to `/logs`.  The awaited
promise never rejects, so the catch branch is dead. -/
def handlePlanTrip (currentLocation pickupLocation dropoffLocation : String)
    (cycleHours : ℚ) (mapLocations : List Location) (now : Nat) : PlanResult :=
  if currentLocation = "" ∨ pickupLocation = "" ∨ dropoffLocation = "" then
    { toasts := ["Missing Information"], stored := none, navigations := [] }
  else
    { toasts := ["Trip Planned Successfully"],
      stored := some { currentLocation, pickupLocation, dropoffLocation,
                       cycleHours, mapLocations, plannedAt := now },
      navigations := ["/logs"] }

/-- C2: submission rejects with the validation toast and writes nothing
iff some address text is empty; with all three non-empty (and
cycleHours anywhere in [0,70]) it writes exactly the record built from
the inputs, whose plannedAt is the write-time clock, at or after
submission start. -/
theorem handlePlanTrip_spec (cur pick drop : String) (q : ℚ)
    (locs : List Location) (tStart now : Nat)
    (_hq0 : 0 ≤ q) (_hq70 : q ≤ 70) (hmono : tStart ≤ now) :
    (((handlePlanTrip cur pick drop q locs now).stored = none ∧
        (handlePlanTrip cur pick drop q locs now).toasts = ["Missing Information"]) ↔
      (cur = "" ∨ pick = "" ∨ drop = "")) ∧
      ((cur ≠ "" ∧ pick ≠ "" ∧ drop ≠ "") →
        (handlePlanTrip cur pick drop q locs now).stored =
            some { currentLocation := cur, pickupLocation := pick,
                   dropoffLocation := drop, cycleHours := q,
                   mapLocations := locs, plannedAt := now } ∧
          tStart ≤ (handlePlanTrip cur pick drop q locs now).stored.elim 0
            TripData.plannedAt) := by
  unfold handlePlanTrip
  split_ifs with h <;> simp_all
  tauto

/-- Witness for C2 at a concrete submission: all fields non-empty,
cycleHours 35.5, clock 5 at entry and 7 at the write. -/
theorem handlePlanTrip_spec_witness :
    (((handlePlanTrip "A" "B" "C" 35.5 [] 7).stored = none ∧
        (handlePlanTrip "A" "B" "C" 35.5 [] 7).toasts = ["Missing Information"]) ↔
      (("A" : String) = "" ∨ ("B" : String) = "" ∨ ("C" : String) = "")) ∧
      ((("A" : String) ≠ "" ∧ ("B" : String) ≠ "" ∧ ("C" : String) ≠ "") →
        (handlePlanTrip "A" "B" "C" 35.5 [] 7).stored =
            some { currentLocation := "A", pickupLocation := "B",
                   dropoffLocation := "C", cycleHours := 35.5,
                   mapLocations := [], plannedAt := 7 } ∧
          5 ≤ (handlePlanTrip "A" "B" "C" 35.5 [] 7).stored.elim 0
            TripData.plannedAt) :=
  handlePlanTrip_spec "A" "B" "C" 35.5 [] 5 7 (by norm_num) (by norm_num)
    (by norm_num)

/-- The local state of the `PlanTrip` component (`PlanTrip.tsx` lines
23-29): the three address texts, the cycle hours (initial value 35.5),
the working set of map locations, and the isCalculating flag. -/
structure PlanTripState where
  currentLocation : String
  pickupLocation : String
  dropoffLocation : String
  cycleHours : ℚ
  mapLocations : List Location
  isCalculating : Bool
deriving DecidableEq, Repr

/-- The `useState` initial values of `PlanTrip.tsx`. -/
def initialPlanTripState : PlanTripState :=
  { currentLocation := "", pickupLocation := "", dropoffLocation := "",
    cycleHours := 35.5, mapLocations := [], isCalculating := false }

/-- The Clear All Fields button handler (`PlanTrip.tsx` lines 209-215):
empties the three texts, sets cycleHours to 0 and mapLocations to [];
touches nothing else. -/
def clearAllFields (s : PlanTripState) : PlanTripState :=
  { s with currentLocation := "", pickupLocation := "", dropoffLocation := "",
           cycleHours := 0, mapLocations := [] }

/-- C10: Clear All Fields empties the three address texts, sets
cycleHours to 0 (not back to the initial default 35.5), empties the
working set of map Locations, and leaves the rest of the
planning-surface state (isCalculating) unchanged. -/
theorem clearAllFields_spec (s : PlanTripState) :
    (clearAllFields s).currentLocation = "" ∧
      (clearAllFields s).pickupLocation = "" ∧
      (clearAllFields s).dropoffLocation = "" ∧
      (clearAllFields s).cycleHours = 0 ∧
      (clearAllFields s).cycleHours ≠ initialPlanTripState.cycleHours ∧
      initialPlanTripState.cycleHours = 35.5 ∧
      (clearAllFields s).mapLocations = [] ∧
      (clearAllFields s).isCalculating = s.isCalculating := by
  refine ⟨rfl, rfl, rfl, rfl, ?_, rfl, rfl, rfl⟩
  norm_num [clearAllFields, initialPlanTripState]

/-- The `setMapLocations` updater inside `handleLocationChange`
(`PlanTrip.tsx` lines 51-58): drop every prior location of the same
role (`prev.filter(loc => loc.type !== type)`), then append the new
one. -/
def updateMapLocations (prev : List Location) (newLocation : Location) : List Location :=
  (prev.filter fun loc => decide (loc.type ≠ newLocation.type)) ++ [newLocation]

/-- The working set of map locations after a sequence of
selections-with-coordinates, starting from the initial `[]`. -/
def workingSet (sels : List Location) : List Location :=
  sels.foldl updateMapLocations []

/-- Number of locations of role `r` in the working set. -/
def countRole (xs : List Location) (r : LocationType) : Nat :=
  (xs.filter fun loc => decide (loc.type = r)).length

theorem countRole_filter_ne (xs : List Location) (t : LocationType) :
    countRole (xs.filter fun loc => decide (loc.type ≠ t)) t = 0 := by
  induction xs with
  | nil => rfl
  | cons a tl ih => by_cases h : a.type = t <;> simp_all [countRole]

theorem countRole_filter_le (xs : List Location) (t r : LocationType) :
    countRole (xs.filter fun loc => decide (loc.type ≠ t)) r ≤ countRole xs r :=
  List.Sublist.length_le (List.Sublist.filter _ (List.filter_sublist xs))

theorem countRole_update_le (xs : List Location) (l : Location) (r : LocationType)
    (hxs : countRole xs r ≤ 1) : countRole (updateMapLocations xs l) r ≤ 1 := by
  have happ : countRole (updateMapLocations xs l) r =
      countRole (xs.filter fun loc => decide (loc.type ≠ l.type)) r +
        countRole [l] r := by
    simp [updateMapLocations, countRole, List.filter_append]
  by_cases hr : l.type = r
  · subst hr
    rw [happ, countRole_filter_ne]
    simp [countRole]
  · have h1 : countRole [l] r = 0 := by simp [countRole, hr]
    rw [happ, h1]
    exact le_trans (by simpa using countRole_filter_le xs l.type r) hxs

theorem countRole_workingSet_le (sels : List Location) (r : LocationType) :
    countRole (workingSet sels) r ≤ 1 := by
  suffices h : ∀ acc, (∀ s, countRole acc s ≤ 1) →
      ∀ s, countRole (sels.foldl updateMapLocations acc) s ≤ 1 by
    exact h [] (fun s => by simp [countRole]) r
  induction sels with
  | nil => intro acc hacc s; simpa [workingSet] using hacc s
  | cons a tl ih =>
    intro acc hacc s
    exact ih _ (fun u => countRole_update_le acc a u (hacc u)) s

theorem update_filter_same (xs : List Location) (l : Location) :
    ((updateMapLocations xs l).filter fun loc => decide (loc.type = l.type)) = [l] := by
  have h0 : ((xs.filter fun loc => decide (loc.type ≠ l.type)).filter
      fun loc => decide (loc.type = l.type)) = [] :=
    List.length_eq_zero.mp (countRole_filter_ne xs l.type)
  simp [updateMapLocations, List.filter_append, h0]

theorem update_length_of_used (xs : List Location) (l : Location)
    (hused : l.type ∈ xs.map Location.type) (hinv : countRole xs l.type ≤ 1) :
    (updateMapLocations xs l).length = xs.length := by
  have hsplit : xs.length =
      (xs.filter fun loc => decide (loc.type = l.type)).length +
        (xs.filter fun loc => decide (loc.type ≠ l.type)).length := by
    have hcongr : (xs.filter fun loc => ! decide (loc.type = l.type)) =
        (xs.filter fun loc => decide (loc.type ≠ l.type)) := by
      apply List.filter_congr
      intro a _
      simp [decide_not]
    rw [← hcongr]
    exact List.length_eq_length_filter_add _
  have hpos : 1 ≤ countRole xs l.type := by
    obtain ⟨a, ha, hat⟩ := List.mem_map.mp hused
    have hmem : a ∈ xs.filter fun loc => decide (loc.type = l.type) :=
      List.mem_filter.mpr ⟨ha, by simp [hat]⟩
    have hne := List.ne_nil_of_mem hmem
    have := List.length_pos.mpr hne
    simpa [countRole] using this
  have hone : countRole xs l.type = 1 := le_antisymm hinv hpos
  have hlen : (updateMapLocations xs l).length =
      (xs.filter fun loc => decide (loc.type ≠ l.type)).length + 1 := by
    simp [updateMapLocations]
  rw [hlen, hsplit]
  have : (xs.filter fun loc => decide (loc.type = l.type)).length = 1 := by
    simpa [countRole] using hone
  omega

/-- C6: after any sequence of location selections the working set holds
at most one Location per role, and selecting a Location for an
already-used role replaces the prior one (the role's slot afterwards
holds exactly the new Location, and the set does not grow). -/
theorem mapLocations_role_unique (sels : List Location) (l : Location)
    (r : LocationType) (hused : l.type ∈ (workingSet sels).map Location.type) :
    countRole (workingSet sels) r ≤ 1 ∧
      ((updateMapLocations (workingSet sels) l).filter fun loc =>
          decide (loc.type = l.type)) = [l] ∧
      (updateMapLocations (workingSet sels) l).length = (workingSet sels).length :=
  ⟨countRole_workingSet_le sels r,
    update_filter_same (workingSet sels) l,
    update_length_of_used (workingSet sels) l hused
      (countRole_workingSet_le sels l.type)⟩

/-- A concrete location of role `current`. -/
def locA : Location := { lat := 1, lng := 2, address := "A", type := .current }

/-- Another concrete location of role `current`. -/
def locB : Location := { lat := 3, lng := 4, address := "B", type := .current }

/-- Witness for C6: re-selecting role `current` replaces `locA` by
`locB` without growing the working set. -/
theorem mapLocations_role_unique_witness :
    countRole (workingSet [locA]) LocationType.current ≤ 1 ∧
      ((updateMapLocations (workingSet [locA]) locB).filter fun loc =>
          decide (loc.type = locB.type)) = [locB] ∧
      (updateMapLocations (workingSet [locA]) locB).length =
        (workingSet [locA]).length :=
  mapLocations_role_unique [locA] locB LocationType.current (by decide)

/-- Observable outcome of the review surface's activation effect
(`ReviewLogs.tsx` lines 56-72): resulting component state, toasts
raised, navigations performed, and the trip records the mock generator
was invoked on. -/
structure ReviewActivation where
  tripData : Option TripData
  eldLogs : List ELDLog
  toasts : List String
  navigations : List String
  generatorCalls : List TripData
deriving DecidableEq, Repr

/-- The `useEffect` body of `ReviewLogs.tsx`: with a stored record,
set the state and invoke `generateELDLogs` on it; with the storage
slot empty, raise the "No Trip Data" destructive toast and navigate to
`/plan`, never invoking the generator. -/
def reviewLogsOnActivate (stored : Option TripData) : ReviewActivation :=
  match stored with
  | some data =>
      { tripData := some data, eldLogs := generateELDLogs data,
        toasts := [], navigations := [], generatorCalls := [data] }
  | none =>
      { tripData := none, eldLogs := [], toasts := ["No Trip Data"],
        navigations := ["/plan"], generatorCalls := [] }

/-- C7: when no persisted TripRecord is present the review surface
raises the validation toast and redirects to the planning route, and
the mock log generator is never invoked; with a record present there
is no redirect and the generator runs exactly once on it. -/
theorem reviewLogs_missing_trip_redirects :
    ((reviewLogsOnActivate none).toasts = ["No Trip Data"] ∧
        (reviewLogsOnActivate none).navigations = ["/plan"] ∧
        (reviewLogsOnActivate none).generatorCalls = [] ∧
        (reviewLogsOnActivate none).eldLogs = []) ∧
      ∀ data : TripData,
        (reviewLogsOnActivate (some data)).navigations = [] ∧
          (reviewLogsOnActivate (some data)).generatorCalls = [data] :=
  ⟨⟨rfl, rfl, rfl, rfl⟩, fun _ => ⟨rfl, rfl⟩⟩

/-- Overlay state held by the MapContext provider (the unnamed source
file defining `addMarker` / `drawRoute`): the `markers.current` array
(one entry per `addMarker` call, recorded with the location it was
created from) and the number of `route` / `route-layer` source-layer
pairs present on the map. -/
structure MapState where
  markers : List Location
  routeLayers : Nat
deriving DecidableEq, Repr

/-- Map overlay state before any mutation. -/
def initialMapState : MapState := { markers := [], routeLayers := 0 }

/-- `addMarker` of the MapContext (lines 45-55): builds a new Marker
for the location and pushes it onto `markers.current`; no prior marker
of any role is removed. -/
def addMarker (s : MapState) (loc : Location) : MapState :=
  { s with markers := s.markers ++ [loc] }

/-- `drawRoute` of the MapContext (lines 62-101): with fewer than two
locations it returns immediately; otherwise it removes the existing
`route-layer` / `route` pair when present and then adds one source and
one layer. -/
def drawRoute (s : MapState) (locs : List Location) : MapState :=
  if locs.length < 2 then s
  else { s with routeLayers :=
          (if 0 < s.routeLayers then s.routeLayers - 1 else s.routeLayers) + 1 }

/-- C8 evaluated at the failing input: calling `addMarker` twice for
role `current` (re-selecting the current location) leaves two markers
of that role on the map, refuting remove-before-add for markers; the
route path does conform (two `drawRoute` calls leave one layer). -/
theorem addMarker_accumulates_same_role :
    countRole (addMarker (addMarker initialMapState locA) locB).markers
        LocationType.current = 2 ∧
      (addMarker (addMarker initialMapState locA) locB).markers = [locA, locB] ∧
      (drawRoute (drawRoute initialMapState [locA, locB]) [locA, locB]).routeLayers
        = 1 := by
  refine ⟨rfl, rfl, rfl⟩

/-- One scheduler event of the debounced geocoding effect in
`LocationInput.tsx` (lines 54-78): `issue q` is the effect run for the
debounced term `q` starting `geocoding.forward`; `respond q results`
is the arrival of the network response carrying the suggestions for
query `q`.  Both fetches can be in flight at once, so responses may
arrive in either order. -/
inductive GeoEvent where
  | issue (q : String)
  | respond (q : String) (results : List String)
deriving DecidableEq, Repr

/-- Suggestion-related component state: the queries issued so far
(latest last) and the current `suggestions` state. -/
structure SuggestState where
  issued : List String
  suggestions : List String
deriving DecidableEq, Repr

/-- Component state before any query. -/
def initialSuggestState : SuggestState := { issued := [], suggestions := [] }

/-- The code's handling of the two events: issuing records the query;
a response is applied unconditionally (`setSuggestions(results.features)`)
with no check that its query is still the most recently issued one. -/
def geoStep (s : SuggestState) (e : GeoEvent) : SuggestState :=
  match e with
  | .issue q => { s with issued := s.issued ++ [q] }
  | .respond _ results => { s with suggestions := results }

/-- Suggestion state after an interleaving of issues and responses. -/
def geoRun (events : List GeoEvent) : SuggestState :=
  events.foldl geoStep initialSuggestState

/-- The failing interleaving for C9: a second query supersedes the
first, the newer query's response arrives first, then the stale
response of the superseded query arrives last. -/
def staleTrace : List GeoEvent :=
  [ .issue "old query", .issue "new query",
    .respond "new query" ["fresh result"],
    .respond "old query" ["stale result"] ]

/-- C9 evaluated at the failing interleaving: the response of the
superseded query is not discarded - it overwrites the suggestion
state, which ends holding the stale results instead of the fresh
ones. -/
theorem stale_response_overwrites_suggestions :
    (geoRun staleTrace).issued = ["old query", "new query"] ∧
      (geoRun staleTrace).suggestions = ["stale result"] ∧
      (geoRun staleTrace).suggestions ≠ ["fresh result"] := by
  refine ⟨rfl, rfl, by decide⟩

end Truckmate
